import Mathlib

/-!
Shallow embedding of src/prow/kube/client.go (package kube): the request
execution layer of a Kubernetes REST client.  Pure data and control flow
are translated directly from the source; external effects (the network,
the clock, the filesystem, the logger) are modelled as explicit
environments and as event traces that record, in order, each attempt
start, each network round trip and each backoff sleep.
-/

/-- Dynamic types of Go error values produced in client.go.  Every error
the file creates comes from fmt.Errorf without a %w verb, whose dynamic
type is the concrete pointer type errors.errorString. -/
inductive GoDynType
  | errorString
  deriving DecidableEq

/-- A Go interface value of interface type error: a dynamic type together
with the message its Error method returns. -/
structure GoError where
  dyn : GoDynType
  msg : String
  deriving DecidableEq

/-- Model of fmt.Errorf with a fully formatted message and no %w verb: the
dynamic type of the produced value is errors.errorString. -/
def fmtErrorf (msg : String) : GoError :=
  { dyn := GoDynType.errorString, msg := msg }

/-- Line 65 of client.go declares ConflictError with underlying type
error, so ConflictError is itself an interface type whose method set is
exactly that of error.  The Go conversion ConflictError(err) between two
interface types leaves the dynamic pair of the value unchanged, so on the
modelled interface value it is the identity. -/
def ConflictError (e : GoError) : GoError := e

/-- A Go type assertion of the form e.(ConflictError) succeeds exactly
when the dynamic type of e implements the method set of ConflictError,
which is the method set of error; the dynamic type errors.errorString
implements it. -/
def implementsConflictError : GoDynType → Bool
  | GoDynType.errorString => true

/-- Whether a type assertion to ConflictError on this error value
succeeds. -/
def conflictAssertOk (e : GoError) : Bool :=
  implementsConflictError e.dyn

deriving instance DecidableEq for Except

/-- The fields of an http.Response that requestRetry consumes, with the
outcome of ioutil.ReadAll over the body inlined, since reading the body
can itself fail. -/
structure HttpResponse where
  statusCode : Nat
  status : String
  bodyRead : Except GoError String
  deriving DecidableEq

/-- Observable events of one requestRetry run, in order: the start of a
loop iteration (one doRequest invocation), one network round trip handed
to the http client, one backoff sleep with its duration in seconds. -/
inductive Event
  | attempt
  | netCall
  | sleep (seconds : Nat)
  deriving DecidableEq

def isAttempt : Event → Bool
  | Event.attempt => true
  | _ => false

def isNetCall : Event → Bool
  | Event.netCall => true
  | _ => false

def isSleep : Event → Bool
  | Event.sleep _ => true
  | _ => false

/-- Number of loop iterations (doRequest invocations) in a trace. -/
def countAttempts (evs : List Event) : Nat := evs.countP isAttempt

/-- Number of network round trips in a trace. -/
def countNetCalls (evs : List Event) : Nat := evs.countP isNetCall

/-- The sleep durations of a trace, in order. -/
def sleepsOf (evs : List Event) : List Nat :=
  evs.filterMap fun e =>
    match e with
    | Event.sleep s => some s
    | _ => none

/-- Sleeps occur only between attempts: no sleep precedes the first
attempt event of the trace and no sleep follows its last attempt event. -/
def sleepsOnlyBetweenAttempts (evs : List Event) : Bool :=
  ((evs.takeWhile fun e => !(isAttempt e)).all fun e => !(isSleep e)) &&
  ((evs.reverse.takeWhile fun e => !(isAttempt e)).all fun e => !(isSleep e))

/-- Constant of line 33. -/
def inClusterBaseURL : String := "https://kubernetes"

/-- Constant of line 34. -/
def maxRetries : Nat := 8

/-- Constant of line 35: 2 * time.Second, counted here in seconds. -/
def retryDelay : Nat := 2

/-- The canonical empty-success body returned in fake mode: an opening
curly brace directly followed by a closing curly brace. -/
def emptyObjectBody : String := "\x7b\x7d"

/-- The Client struct of lines 43 to 52.  The Logger field is modelled by
whether it is non nil; the http.Client field carries no data this layer
later reads and is omitted. -/
structure Client where
  hasLogger : Bool
  baseURL : String
  token : String
  nspace : String
  fake : Bool
  deriving DecidableEq

/-- Environment of one requestRetry run over a fixed request descriptor:
whether the descriptor carries a non nil body, the deterministic outcomes
of json.Marshal on that body and of http.NewRequest, and the outcome of
the n-th network round trip handed to http.Client.Do. -/
structure DoEnv where
  hasBody : Bool
  marshal : Option GoError
  newRequest : Option GoError
  net : Nat → Except GoError HttpResponse

/-- The part of doRequest after body serialization: build the request,
then perform the round trip. -/
def doRequestCore (env : DoEnv) (netIdx : Nat) :
    Except GoError HttpResponse × List Event × Nat :=
  match env.newRequest with
  | some e => (Except.error e, [Event.attempt], netIdx)
  | none =>
    match env.net netIdx with
    | Except.error e => (Except.error e, [Event.attempt, Event.netCall], netIdx + 1)
    | Except.ok r => (Except.ok r, [Event.attempt, Event.netCall], netIdx + 1)

/-- doRequest, lines 121 to 149: serialize the body to JSON when it is non
nil (returning a serialization error without any network call), build the
request (likewise), then perform the round trip.  Header and query
construction, lines 135 to 146, cannot fail and produce no events. -/
def doRequest (env : DoEnv) (netIdx : Nat) :
    Except GoError HttpResponse × List Event × Nat :=
  if env.hasBody then
    match env.marshal with
    | some e => (Except.error e, [Event.attempt], netIdx)
    | none => doRequestCore env netIdx
  else doRequestCore env netIdx

/-- The for loop of requestRetry, lines 95 to 103: remaining is the number
of loop iterations still allowed (maxRetries minus retries), backoff the
current delay, netIdx the number of network round trips so far.  Every
failed iteration sleeps the current backoff and then doubles it, including
the final one; the loop exits early on the first iteration whose doRequest
returns a response.  The case remaining = 0 is never reached from
requestRetry since maxRetries = 8. -/
def retryLoop (env : DoEnv) :
    Nat → Nat → Nat → Except GoError HttpResponse × List Event
  | 0, _, _ => (Except.error (fmtErrorf "unreachable: the loop runs at least once"), [])
  | remaining + 1, backoff, netIdx =>
    match doRequest env netIdx with
    | (Except.ok r, evs, _) => (Except.ok r, evs)
    | (Except.error e, evs, netIdx2) =>
      match remaining with
      | 0 => (Except.error e, evs ++ [Event.sleep backoff])
      | r + 1 =>
        match retryLoop env (r + 1) (backoff * 2) netIdx2 with
        | (res, evs2) => (res, evs ++ [Event.sleep backoff] ++ evs2)

/-- Lines 108 to 118: read and buffer the whole body, then classify the
status.  Status 409 yields an error converted to ConflictError wrapping
the message "body: " followed by the body text; any other status outside
200 to 299 yields a generic fmt.Errorf error echoing status and body;
otherwise the buffered body is returned. -/
def interpretResponse (resp : HttpResponse) : Except GoError String :=
  match resp.bodyRead with
  | Except.error e => Except.error e
  | Except.ok rb =>
    if resp.statusCode = 409 then
      Except.error (ConflictError (fmtErrorf ("body: " ++ rb)))
    else if resp.statusCode < 200 ∨ 299 < resp.statusCode then
      Except.error (fmtErrorf
        ("response has status \"" ++ resp.status ++ "\" and body \"" ++ rb ++ "\""))
    else
      Except.ok rb

/-- requestRetry, lines 88 to 119: fake mode short circuits to the empty
object body with no events at all; otherwise the retry loop runs with
maxRetries iterations allowed and initial backoff retryDelay and, when it
ends holding a response, that response is interpreted. -/
def requestRetry (c : Client) (env : DoEnv) : Except GoError String × List Event :=
  if c.fake then (Except.ok emptyObjectBody, [])
  else
    match retryLoop env maxRetries retryDelay 0 with
    | (Except.error e, evs) => (Except.error e, evs)
    | (Except.ok resp, evs) => (interpretResponse resp, evs)

/-- What a non nil result slot holds after json.Unmarshal succeeds. -/
inductive DecodeResult
  | zero
  | fromBody (body : String)
  deriving DecidableEq

/-- Model of encoding/json.Unmarshal into a non nil result slot at the
fidelity this client exercises: empty input is not valid JSON and fails
with the message "unexpected end of JSON input"; the empty object parses
and leaves the slot at its zero value; any other input is modelled as
filling the slot from the body (which further inputs are valid JSON is
never needed here). -/
def jsonUnmarshal (s : String) : Except GoError DecodeResult :=
  if s = "" then Except.error (fmtErrorf "unexpected end of JSON input")
  else if s = emptyObjectBody then Except.ok DecodeResult.zero
  else Except.ok (DecodeResult.fromBody s)

/-- request, lines 74 to 85: run requestRetry and, on success, when the
caller passed a non nil result slot, unmarshal the buffered body into it.
A nil slot skips deserialization and the body is discarded. -/
def request (c : Client) (env : DoEnv) (retNonNil : Bool) :
    Except GoError (Option DecodeResult) × List Event :=
  match requestRetry c env with
  | (Except.error e, evs) => (Except.error e, evs)
  | (Except.ok out, evs) =>
    if retNonNil then
      match jsonUnmarshal out with
      | Except.error e => (Except.error e, evs)
      | Except.ok d => (Except.ok (some d), evs)
    else (Except.ok none, evs)

/-- NewFakeClient, lines 151 to 157: Logger nil, namespace default, fake
set; the remaining fields keep their Go zero values. -/
def NewFakeClient : Client :=
  { hasLogger := false, baseURL := "", token := "", nspace := "default", fake := true }

/-- Path constant of line 161. -/
def serviceAccountTokenPath : String :=
  "/var/run/secrets/kubernetes.io/serviceaccount/token"

/-- Path constant of line 167. -/
def serviceAccountRootCAPath : String :=
  "/var/run/secrets/kubernetes.io/serviceaccount/ca.crt"

/-- Environment of NewClientInCluster: ioutil.ReadFile by path, and the
boolean an x509 CertPool returns from AppendCertsFromPEM on the read
bytes, true exactly when at least one certificate was parsed out of the
PEM data. -/
structure InClusterEnv where
  readFile : String → Except GoError String
  appendCertsFromPEM : String → Bool

/-- NewClientInCluster, lines 159 to 189: the token file and then the CA
file are read, each read error being returned as is; the CA data is handed
to AppendCertsFromPEM, whose boolean result the source discards (line
174); the TLS transport construction of lines 176 to 182 always succeeds
and carries no data this layer later reads, so it is not modelled.  The
built client has a nil Logger and fake false, the Go zero values. -/
def NewClientInCluster (env : InClusterEnv) (nspc : String) : Except GoError Client :=
  match env.readFile serviceAccountTokenPath with
  | Except.error e => Except.error e
  | Except.ok token =>
    match env.readFile serviceAccountRootCAPath with
    | Except.error e => Except.error e
    | Except.ok certData =>
      let _ := env.appendCertsFromPEM certData
      Except.ok { hasLogger := false, baseURL := inClusterBaseURL, token := token,
                  nspace := nspc, fake := false }

/-- labelsToSelector, lines 191 to 197, with the Go map given as the list
of its entries in iteration order (Go map iteration order is unspecified):
each entry is rendered as key, space, equals sign, space, value, and the
renderings are joined with commas. -/
def labelsToSelector (labels : List (String × String)) : String :=
  String.intercalate "," (labels.map fun kv => kv.1 ++ " = " ++ kv.2)

/-- log, lines 54 to 63: with a nil Logger nothing happens; otherwise one
Printf invocation producing the method name followed, between parentheses,
by the %v renderings of the arguments joined by comma and space.  The
formatted line is recorded. -/
def clientLog (c : Client) (methodName : String) (args : List String) : List String :=
  if c.hasLogger then
    [methodName ++ "(" ++ String.intercalate ", " args ++ ")"]
  else []

/-- A Kubernetes Secret as this layer sees it: only its fmt %v rendering,
which exposes the payload, is ever relevant here. -/
structure Secret where
  rendering : String

/-- A Job as this layer sees it: its fmt %v rendering. -/
structure Job where
  rendering : String

/-- The request descriptor struct of lines 67 to 72, the body kept as its
serialized rendering. -/
structure Request where
  method : String
  path : String
  query : List (String × String)
  requestBody : Option String
  deriving DecidableEq

/-- ReplaceSecret, lines 305 to 313: logs only the method name and the
secret name (the source comments that the omission of the secret from the
logs is purposeful), then issues a PUT whose body is the secret.  The
result is the pair of the produced log lines and the request descriptor. -/
def ReplaceSecret (c : Client) (name : String) (s : Secret) : List String × Request :=
  (clientLog c "ReplaceSecret" [name],
   { method := "PUT",
     path := "/api/v1/namespaces/" ++ c.nspace ++ "/secrets/" ++ name,
     query := [],
     requestBody := some s.rendering })

/-- CreateJob, lines 264 to 273: logs the method name and the %v rendering
of the job, then issues a POST whose body is the job. -/
def CreateJob (c : Client) (j : Job) : List String × Request :=
  (clientLog c "CreateJob" [j.rendering],
   { method := "POST",
     path := "/apis/batch/v1/namespaces/" ++ c.nspace ++ "/jobs",
     query := [],
     requestBody := some j.rendering })

/-- Trace of a run whose first k iterations fail at the network before an
iteration whose round trip completes: attempt, round trip and sleep with
doubling backoff for each failure, then the final attempt with its round
trip and no sleep after it. -/
def failThenSuccessEvents : Nat → Nat → List Event
  | 0, _ => [Event.attempt, Event.netCall]
  | k + 1, backoff =>
    Event.attempt :: Event.netCall :: Event.sleep backoff ::
      failThenSuccessEvents k (backoff * 2)

/-- Trace of a run all of whose m iterations fail at the network: each
iteration contributes an attempt, a round trip and a sleep, the backoff
doubling every time; the last sleep follows the last attempt. -/
def allNetFailEvents : Nat → Nat → List Event
  | 0, _ => []
  | k + 1, backoff =>
    Event.attempt :: Event.netCall :: Event.sleep backoff ::
      allNetFailEvents k (backoff * 2)

/-- Trace of a run all of whose m iterations fail before any network round
trip, as with a deterministic request construction failure: each iteration
contributes an attempt and a sleep and no round trip. -/
def constructFailEvents : Nat → Nat → List Event
  | 0, _ => []
  | k + 1, backoff =>
    Event.attempt :: Event.sleep backoff :: constructFailEvents k (backoff * 2)

/-- A representative non fake client, as NewClientInCluster builds one. -/
def realClient : Client :=
  { hasLogger := false, baseURL := inClusterBaseURL, token := "sa-token",
    nspace := "default", fake := false }

/-- A run environment whose every network round trip fails. -/
def c5FailEnv : DoEnv :=
  { hasBody := false, marshal := none, newRequest := none,
    net := fun _ => Except.error (fmtErrorf "dial tcp: connection refused") }

/-- A 500 response with body oops. -/
def c6Resp500 : HttpResponse :=
  { statusCode := 500, status := "500 Internal Server Error", bodyRead := Except.ok "oops" }

/-- A run environment failing twice at the transport and then completing a
round trip with a 500 response. -/
def c6Env : DoEnv :=
  { hasBody := false, marshal := none, newRequest := none,
    net := fun i => if i < 2 then Except.error (fmtErrorf "i/o timeout")
      else Except.ok c6Resp500 }

/-- A successful response carrying the empty object body. -/
def c4Resp : HttpResponse :=
  { statusCode := 200, status := "200 OK", bodyRead := Except.ok emptyObjectBody }

/-- A run environment failing three times at the transport and then
completing a round trip with a 200 response. -/
def c4SucceedEnv : DoEnv :=
  { hasBody := false, marshal := none, newRequest := none,
    net := fun i => if i < 3 then Except.error (fmtErrorf "no route to host")
      else Except.ok c4Resp }

/-- A run environment whose every network round trip fails, for the trace
with a trailing sleep. -/
def c4AllFailEnv : DoEnv :=
  { hasBody := false, marshal := none, newRequest := none,
    net := fun _ => Except.error (fmtErrorf "network is unreachable") }

/-- A run environment whose body serialization fails deterministically, as
json.Marshal does on a value holding an unsupported type; the network is
never reached. -/
def c10MarshalEnv : DoEnv :=
  { hasBody := true, marshal := some (fmtErrorf "json: unsupported type: chan int"),
    newRequest := none,
    net := fun _ => Except.error (fmtErrorf "unreachable network call") }

/-- A run environment answering the first round trip with a 409 response. -/
def c1Env409 : DoEnv :=
  { hasBody := false, marshal := none, newRequest := none,
    net := fun _ => Except.ok
      { statusCode := 409, status := "409 Conflict", bodyRead := Except.ok "stale resource" } }

/-- A run environment answering the first round trip with a 500 response. -/
def c1Env500 : DoEnv :=
  { hasBody := false, marshal := none, newRequest := none,
    net := fun _ => Except.ok
      { statusCode := 500, status := "500 Internal Server Error", bodyRead := Except.ok "oops" } }

/-- A filesystem on which both service account files read fine but the CA
bytes are not parseable PEM, so AppendCertsFromPEM returns false on them. -/
def c2BadPEMEnv : InClusterEnv :=
  { readFile := fun p =>
      if p = serviceAccountTokenPath then Except.ok "bearer-token-bytes"
      else Except.ok "this is not a pem bundle",
    appendCertsFromPEM := fun _ => false }

/-- A run environment answering the first round trip with a 200 response
whose body is empty. -/
def c3EmptyBodyEnv : DoEnv :=
  { hasBody := false, marshal := none, newRequest := none,
    net := fun _ => Except.ok
      { statusCode := 200, status := "200 OK", bodyRead := Except.ok "" } }

/-- One loop iteration whose doRequest returns a response exits the loop at
once with that response and the events of the iteration. -/
theorem retryLoop_step_ok (env : DoEnv) (r backoff netIdx : Nat)
    (resp : HttpResponse) (evs : List Event) (n2 : Nat)
    (h : doRequest env netIdx = (Except.ok resp, evs, n2)) :
    retryLoop env (r + 1) backoff netIdx = (Except.ok resp, evs) := by
  unfold retryLoop
  rw [h]

/-- The last allowed iteration, when it fails, still sleeps the current
backoff before the loop exits with its error. -/
theorem retryLoop_step_err_last (env : DoEnv) (backoff netIdx : Nat)
    (e : GoError) (evs : List Event) (n2 : Nat)
    (h : doRequest env netIdx = (Except.error e, evs, n2)) :
    retryLoop env 1 backoff netIdx = (Except.error e, evs ++ [Event.sleep backoff]) := by
  unfold retryLoop
  rw [h]

/-- A failed iteration with iterations to spare sleeps the current backoff
and continues with the backoff doubled. -/
theorem retryLoop_step_err (env : DoEnv) (r backoff netIdx : Nat)
    (e : GoError) (evs : List Event) (n2 : Nat)
    (h : doRequest env netIdx = (Except.error e, evs, n2)) :
    retryLoop env (r + 2) backoff netIdx
      = ((retryLoop env (r + 1) (backoff * 2) n2).1,
         evs ++ [Event.sleep backoff] ++ (retryLoop env (r + 1) (backoff * 2) n2).2) := by
  conv_lhs => unfold retryLoop
  rw [h]

/-- Unfolding step of the all transport failures trace. -/
theorem allNetFailEvents_succ (k b : Nat) :
    allNetFailEvents (k + 1) b
      = Event.attempt :: Event.netCall :: Event.sleep b :: allNetFailEvents k (b * 2) := rfl

/-- Unfolding step of the fail then succeed trace. -/
theorem failThenSuccessEvents_succ (k b : Nat) :
    failThenSuccessEvents (k + 1) b
      = Event.attempt :: Event.netCall :: Event.sleep b :: failThenSuccessEvents k (b * 2) := rfl

/-- Unfolding step of the construction failure trace. -/
theorem constructFailEvents_succ (k b : Nat) :
    constructFailEvents (k + 1) b
      = Event.attempt :: Event.sleep b :: constructFailEvents k (b * 2) := rfl

/-- doRequest on a bodiless request whose network round trip fails. -/
theorem doRequest_net_err (env : DoEnv) (netIdx : Nat) (e : GoError)
    (hbody : env.hasBody = false) (hnr : env.newRequest = none)
    (hnet : env.net netIdx = Except.error e) :
    doRequest env netIdx = (Except.error e, [Event.attempt, Event.netCall], netIdx + 1) := by
  simp [doRequest, doRequestCore, hbody, hnr, hnet]

/-- doRequest on a bodiless request whose network round trip completes. -/
theorem doRequest_net_ok (env : DoEnv) (netIdx : Nat) (resp : HttpResponse)
    (hbody : env.hasBody = false) (hnr : env.newRequest = none)
    (hnet : env.net netIdx = Except.ok resp) :
    doRequest env netIdx = (Except.ok resp, [Event.attempt, Event.netCall], netIdx + 1) := by
  simp [doRequest, doRequestCore, hbody, hnr, hnet]

/-- doRequest when serialization of a non nil body or request construction
fails deterministically: the error comes back with no network round trip. -/
theorem doRequest_construct_err (env : DoEnv) (netIdx : Nat) (e : GoError)
    (hconstruct : (env.hasBody = true ∧ env.marshal = some e)
      ∨ ((env.hasBody = false ∨ env.marshal = none) ∧ env.newRequest = some e)) :
    doRequest env netIdx = (Except.error e, [Event.attempt], netIdx) := by
  rcases hconstruct with ⟨hb, hm⟩ | ⟨hbm, hnr⟩
  · simp [doRequest, hb, hm]
  · rcases hbm with hb | hm
    · simp [doRequest, doRequestCore, hb, hnr]
    · rcases hb : env.hasBody with _ | _
      · simp [doRequest, doRequestCore, hb, hnr]
      · simp [doRequest, doRequestCore, hb, hm, hnr]

/-- When every round trip fails, m + 1 allowed iterations produce the full
all failure trace and end holding the error of the last iteration. -/
theorem retryLoop_all_net_fail (env : DoEnv) (errs : Nat → GoError)
    (hbody : env.hasBody = false) (hnr : env.newRequest = none)
    (hnet : ∀ i, env.net i = Except.error (errs i)) :
    ∀ (m b ni : Nat),
      retryLoop env (m + 1) b ni
        = (Except.error (errs (ni + m)), allNetFailEvents (m + 1) b) := by
  intro m
  induction m with
  | zero =>
    intro b ni
    rw [retryLoop_step_err_last env b ni (errs ni) _ _
      (doRequest_net_err env ni (errs ni) hbody hnr (hnet ni))]
    simp only [Nat.add_zero]
    rfl
  | succ k ih =>
    intro b ni
    rw [retryLoop_step_err env k b ni (errs ni) _ _
      (doRequest_net_err env ni (errs ni) hbody hnr (hnet ni))]
    rw [ih (b * 2) (ni + 1)]
    rw [allNetFailEvents_succ (k + 1) b]
    have hidx : ni + 1 + k = ni + (k + 1) := by omega
    simp [hidx]

/-- When the first K round trips fail and round trip K completes, the loop
performs exactly K + 1 iterations and returns the response. -/
theorem retryLoop_fail_then_succeed (env : DoEnv) (resp : HttpResponse)
    (hbody : env.hasBody = false) (hnr : env.newRequest = none) :
    ∀ (K m b ni : Nat), K < m →
      (∀ i, i < K → ∃ err, env.net (ni + i) = Except.error err) →
      env.net (ni + K) = Except.ok resp →
      retryLoop env m b ni = (Except.ok resp, failThenSuccessEvents K b) := by
  intro K
  induction K with
  | zero =>
    intro m b ni hm hfail hsucc
    simp only [Nat.add_zero] at hsucc
    match m, hm with
    | mm + 1, _ =>
      rw [retryLoop_step_ok env mm b ni resp _ _
        (doRequest_net_ok env ni resp hbody hnr hsucc)]
      rfl
  | succ k ih =>
    intro m b ni hm hfail hsucc
    match m, hm with
    | mm + 1, hm =>
      have hk : k < mm := Nat.lt_of_succ_lt_succ hm
      have hmm : mm = (mm - 1) + 1 :=
        (Nat.succ_pred_eq_of_pos (Nat.lt_of_le_of_lt (Nat.zero_le k) hk)).symm
      obtain ⟨err0, herr0⟩ := hfail 0 (Nat.succ_pos k)
      simp only [Nat.add_zero] at herr0
      have hrec := ih mm (b * 2) (ni + 1) hk
        (fun i hi => by
          obtain ⟨e2, he2⟩ := hfail (i + 1) (Nat.succ_lt_succ hi)
          exact ⟨e2, by
            have heq : ni + (i + 1) = ni + 1 + i := by omega
            rwa [heq] at he2⟩)
        (by
          have heq : ni + (k + 1) = ni + 1 + k := by omega
          rwa [heq] at hsucc)
      rw [hmm]
      rw [retryLoop_step_err env (mm - 1) b ni err0 _ _
        (doRequest_net_err env ni err0 hbody hnr herr0)]
      rw [← hmm, hrec]
      rw [failThenSuccessEvents_succ k b]
      simp

/-- When every iteration fails before the network with one fixed error,
m + 1 allowed iterations produce the construction failure trace and end
holding that error. -/
theorem retryLoop_construct_fail (env : DoEnv) (e : GoError)
    (hstep : ∀ ni, doRequest env ni = (Except.error e, [Event.attempt], ni)) :
    ∀ (m b ni : Nat),
      retryLoop env (m + 1) b ni = (Except.error e, constructFailEvents (m + 1) b) := by
  intro m
  induction m with
  | zero =>
    intro b ni
    rw [retryLoop_step_err_last env b ni e _ _ (hstep ni)]
    rfl
  | succ k ih =>
    intro b ni
    rw [retryLoop_step_err env k b ni e _ _ (hstep ni)]
    rw [ih (b * 2) ni]
    rw [constructFailEvents_succ (k + 1) b]
    simp

/-- The fail then succeed trace holds K + 1 attempt events. -/
theorem countAttempts_failThenSuccessEvents :
    ∀ (K b : Nat), countAttempts (failThenSuccessEvents K b) = K + 1 := by
  intro K
  induction K with
  | zero => intro b; rfl
  | succ k ih =>
    intro b
    rw [failThenSuccessEvents_succ]
    simp only [countAttempts, List.countP_cons] at ih ⊢
    rw [ih (b * 2)]
    rfl

/-- The fail then succeed trace holds K + 1 round trip events. -/
theorem countNetCalls_failThenSuccessEvents :
    ∀ (K b : Nat), countNetCalls (failThenSuccessEvents K b) = K + 1 := by
  intro K
  induction K with
  | zero => intro b; rfl
  | succ k ih =>
    intro b
    rw [failThenSuccessEvents_succ]
    simp only [countNetCalls, List.countP_cons] at ih ⊢
    rw [ih (b * 2)]
    rfl

/-- The sleeps of the fail then succeed trace double from the initial
backoff: b, 2b, 4b and so on, K of them. -/
theorem sleepsOf_failThenSuccessEvents :
    ∀ (K b : Nat), sleepsOf (failThenSuccessEvents K b)
      = (List.range K).map (fun i => b * 2 ^ i) := by
  intro K
  induction K with
  | zero => intro b; rfl
  | succ k ih =>
    intro b
    rw [failThenSuccessEvents_succ]
    simp only [sleepsOf, List.filterMap_cons] at ih ⊢
    rw [ih (b * 2)]
    rw [List.range_succ_eq_map]
    simp only [List.map_cons, List.map_map]
    refine congrArg₂ _ (by simp) ?_
    refine List.map_congr_left ?_
    intro a _
    simp [Function.comp, Nat.pow_succ]
    ring

/-- The fail then succeed trace, reversed, starts with its final round
trip followed by its final attempt. -/
theorem reverse_failThenSuccessEvents :
    ∀ (K b : Nat), ∃ rest, (failThenSuccessEvents K b).reverse
      = Event.netCall :: Event.attempt :: rest := by
  intro K
  induction K with
  | zero => intro b; exact ⟨[], rfl⟩
  | succ k ih =>
    intro b
    obtain ⟨rest, hrest⟩ := ih (b * 2)
    refine ⟨rest ++ [Event.sleep b, Event.netCall, Event.attempt], ?_⟩
    rw [failThenSuccessEvents_succ]
    simp [hrest]

/-- In the fail then succeed trace, no sleep precedes the first attempt
and no sleep follows the last one. -/
theorem sleepsOnlyBetween_failThenSuccessEvents :
    ∀ (K b : Nat), sleepsOnlyBetweenAttempts (failThenSuccessEvents K b) = true := by
  intro K b
  obtain ⟨rest, hrest⟩ := reverse_failThenSuccessEvents K b
  have hhead : ∃ tail, failThenSuccessEvents K b = Event.attempt :: tail := by
    cases K with
    | zero => exact ⟨[Event.netCall], rfl⟩
    | succ k => exact ⟨_, failThenSuccessEvents_succ k b⟩
  obtain ⟨tail, htail⟩ := hhead
  rw [sleepsOnlyBetweenAttempts, hrest]
  rw [htail]
  simp [List.takeWhile, isAttempt, isSleep]

/-- A list permuting with an explicit pair is that pair in one of its two
orders. -/
theorem perm_pair_eq {α : Type} {l : List α} {x y : α} (h : List.Perm l [x, y]) :
    l = [x, y] ∨ l = [y, x] := by
  have hlen : l.length = 2 := by simpa using h.length_eq
  match l, hlen with
  | [p, q], _ =>
    have hp : p = x ∨ p = y := by
      have hmem : p ∈ [x, y] := h.subset (by simp)
      simpa using hmem
    rcases hp with rfl | rfl
    · left
      have hq : [q] = [y] := List.perm_singleton.mp h.cons_inv
      simp at hq
      rw [hq]
    · right
      have h2 : List.Perm [p, q] [p, x] := h.trans (List.Perm.swap p x [])
      have hq : [q] = [x] := List.perm_singleton.mp h2.cons_inv
      simp at hq
      rw [hq]

/-- Claim C1 (code bug): the claim asks that a 409 produce a conflict
error of a distinguished kind, reliably distinguishable from the generic
failure returned for any other non 2xx status.  The source instead
declares ConflictError with underlying type error, an interface type with
the very method set of error, so a type assertion to ConflictError
succeeds on every error value: here the generic error produced for a 500
response passes the ConflictError assertion too, and the 409 error and
the 500 error share one dynamic type, leaving callers no kind to branch
on.  The theorem evaluates the code on a 409 and on a 500 response and
exhibits both facts. -/
theorem conflictError_assertion_indistinguishable :
    (requestRetry realClient c1Env409).1
      = Except.error (ConflictError (fmtErrorf "body: stale resource"))
    ∧ (requestRetry realClient c1Env500).1
        = Except.error (fmtErrorf
            "response has status \"500 Internal Server Error\" and body \"oops\"")
    ∧ conflictAssertOk (ConflictError (fmtErrorf "body: stale resource")) = true
    ∧ conflictAssertOk (fmtErrorf
        "response has status \"500 Internal Server Error\" and body \"oops\"") = true
    ∧ (ConflictError (fmtErrorf "body: stale resource")).dyn
        = (fmtErrorf "response has status \"500 Internal Server Error\" and body \"oops\"").dyn := by
  decide

/-- Claim C2 counterexample: on a filesystem where both service account
files read fine but the CA bytes parse as no certificate at all
(AppendCertsFromPEM returns false), NewClientInCluster still succeeds,
because the source discards the boolean result of AppendCertsFromPEM; the
claim that construction succeeds only when the CA bundle is parseable is
therefore false. -/
theorem newClientInCluster_accepts_unparseable_ca :
    NewClientInCluster c2BadPEMEnv "testns"
      = Except.ok { hasLogger := false, baseURL := inClusterBaseURL,
                    token := "bearer-token-bytes", nspace := "testns", fake := false }
    ∧ c2BadPEMEnv.appendCertsFromPEM "this is not a pem bundle" = false := by
  decide

/-- Claim C2 (amended): NewClientInCluster returns an error exactly when
reading the token file or reading the CA certificate file fails, and the
error returned is the read error itself; the parse outcome of the CA
bundle is ignored entirely, so construction does not depend on it. -/
theorem newClientInCluster_fails_iff_read_fails
    (env : InClusterEnv) (nspc : String) (f : String → Bool) :
    ((∃ c, NewClientInCluster env nspc = Except.ok c) ↔
      ((∃ t, env.readFile serviceAccountTokenPath = Except.ok t)
        ∧ (∃ d, env.readFile serviceAccountRootCAPath = Except.ok d)))
    ∧ NewClientInCluster { env with appendCertsFromPEM := f } nspc
        = NewClientInCluster env nspc
    ∧ (∀ e, NewClientInCluster env nspc = Except.error e ↔
        (env.readFile serviceAccountTokenPath = Except.error e
          ∨ ((∃ t, env.readFile serviceAccountTokenPath = Except.ok t)
              ∧ env.readFile serviceAccountRootCAPath = Except.error e))) := by
  rcases h1 : env.readFile serviceAccountTokenPath with e1 | t1 <;>
    rcases h2 : env.readFile serviceAccountRootCAPath with e2 | d2 <;>
      simp [NewClientInCluster, h1, h2]

/-- Claim C3 counterexample: a 200 response with an empty body, passed to
request with a non nil result slot, does not succeed with the zero value:
json.Unmarshal rejects empty input, so the call returns the
deserialization error. -/
theorem empty_success_body_fails_decode :
    request realClient c3EmptyBodyEnv true
      = (Except.error (fmtErrorf "unexpected end of JSON input"),
         [Event.attempt, Event.netCall])
    ∧ (request realClient c3EmptyBodyEnv true).1 ≠ Except.ok (some DecodeResult.zero) := by
  decide

/-- Claim C3 (amended): for every non fake call with a non nil result slot
whose first round trip completes with a 2xx response carrying an empty
body, the empty body is not treated as an empty JSON object: the call
fails with the unmarshal error for empty input.  Only fake mode produces
the canonical empty object body. -/
theorem empty_body_not_treated_as_empty_object
    (c : Client) (env : DoEnv) (code : Nat) (st : String)
    (hfake : c.fake = false) (hbody : env.hasBody = false) (hnr : env.newRequest = none)
    (hnet : env.net 0 = Except.ok { statusCode := code, status := st, bodyRead := Except.ok "" })
    (hlo : 200 ≤ code) (hhi : code ≤ 299) :
    request c env true
      = (Except.error (fmtErrorf "unexpected end of JSON input"),
         [Event.attempt, Event.netCall]) := by
  have hloop := retryLoop_fail_then_succeed env
    { statusCode := code, status := st, bodyRead := Except.ok "" } hbody hnr 0 8 retryDelay 0
    (by norm_num) (fun i hi => absurd hi (Nat.not_lt_zero i)) (by simpa using hnet)
  have hint : interpretResponse
      { statusCode := code, status := st, bodyRead := Except.ok "" } = Except.ok "" := by
    simp only [interpretResponse]
    rw [if_neg (by omega), if_neg (by omega)]
  simp only [request, requestRetry, maxRetries, hfake, Bool.false_eq_true, if_false]
  rw [hloop]
  simp only [hint]
  simp [jsonUnmarshal, failThenSuccessEvents]

/-- Witness for the amended claim C3 at a concrete 200 response with empty
body. -/
theorem empty_body_not_treated_as_empty_object_witness :
    request realClient c3EmptyBodyEnv true
      = (Except.error (fmtErrorf "unexpected end of JSON input"),
         [Event.attempt, Event.netCall]) :=
  empty_body_not_treated_as_empty_object realClient c3EmptyBodyEnv 200 "200 OK"
    rfl rfl rfl rfl (by norm_num) (by norm_num)

/-- Claim C4 counterexample: in a non fake run all of whose eight round
trips fail, the trace ends with a sleep of 256 seconds coming after the
final attempt, so sleeps do not occur only between consecutive attempts as
the claim states: the loop body sleeps after every failed attempt, the
last one included. -/
theorem sleep_after_final_attempt :
    realClient.fake = false
    ∧ sleepsOnlyBetweenAttempts (requestRetry realClient c4AllFailEnv).2 = false
    ∧ (requestRetry realClient c4AllFailEnv).2.getLast? = some (Event.sleep 256) := by
  decide

/-- Claim C4 (amended): in a non fake run with exactly K transport
failures (K below 8) followed by an attempt whose round trip completes,
the client performs exactly K + 1 attempts with exactly K monotonically
doubling sleeps of 2, 4, ..., 2 times 2 to the K seconds, all strictly
between consecutive attempts: none before the first attempt, none after
the final one.  (Only when every attempt fails does a trailing sleep
follow the final attempt, which is what the counterexample exhibits.) -/
theorem backoff_sleeps_between_attempts_on_success
    (c : Client) (env : DoEnv) (resp : HttpResponse) (K : Nat)
    (hfake : c.fake = false) (hbody : env.hasBody = false)
    (hnr : env.newRequest = none) (hK : K < 8)
    (hfail : ∀ i, i < K → ∃ err, env.net i = Except.error err)
    (hsucc : env.net K = Except.ok resp) :
    requestRetry c env = (interpretResponse resp, failThenSuccessEvents K retryDelay)
    ∧ countAttempts (failThenSuccessEvents K retryDelay) = K + 1
    ∧ sleepsOf (failThenSuccessEvents K retryDelay)
        = (List.range K).map (fun i => retryDelay * 2 ^ i)
    ∧ sleepsOnlyBetweenAttempts (failThenSuccessEvents K retryDelay) = true := by
  have hloop := retryLoop_fail_then_succeed env resp hbody hnr K 8 retryDelay 0 hK
    (by intro i hi; simpa using hfail i hi)
    (by simpa using hsucc)
  refine ⟨?_, countAttempts_failThenSuccessEvents K retryDelay,
    sleepsOf_failThenSuccessEvents K retryDelay,
    sleepsOnlyBetween_failThenSuccessEvents K retryDelay⟩
  simp only [requestRetry, maxRetries, hfake, Bool.false_eq_true, if_false]
  rw [hloop]

/-- Witness for the amended claim C4 at K = 3 concrete transport failures
before a 200 response. -/
theorem backoff_sleeps_between_attempts_on_success_witness :
    requestRetry realClient c4SucceedEnv
      = (interpretResponse c4Resp, failThenSuccessEvents 3 retryDelay)
    ∧ countAttempts (failThenSuccessEvents 3 retryDelay) = 3 + 1
    ∧ sleepsOf (failThenSuccessEvents 3 retryDelay)
        = (List.range 3).map (fun i => retryDelay * 2 ^ i)
    ∧ sleepsOnlyBetweenAttempts (failThenSuccessEvents 3 retryDelay) = true :=
  backoff_sleeps_between_attempts_on_success realClient c4SucceedEnv c4Resp 3 rfl rfl rfl
    (by decide)
    (fun i hi => ⟨fmtErrorf "no route to host", by simp [c4SucceedEnv, hi]⟩)
    (by simp [c4SucceedEnv])

/-- Claim C5: when every attempt fails at the transport level, requestRetry
performs exactly 8 attempts, each followed by a sleep of the doubling
backoff, and returns the transport error of the final (eighth) attempt
exactly as the transport produced it; the error constructor carries no
byte payload, matching the nil byte slice of the source. -/
theorem requestRetry_exhausts_on_transport_failure
    (c : Client) (env : DoEnv) (errs : Nat → GoError)
    (hfake : c.fake = false) (hbody : env.hasBody = false)
    (hnr : env.newRequest = none)
    (hnet : ∀ i, env.net i = Except.error (errs i)) :
    requestRetry c env = (Except.error (errs 7), allNetFailEvents 8 retryDelay)
    ∧ countAttempts (allNetFailEvents 8 retryDelay) = 8
    ∧ allNetFailEvents 8 retryDelay
        = [Event.attempt, Event.netCall, Event.sleep 2,
           Event.attempt, Event.netCall, Event.sleep 4,
           Event.attempt, Event.netCall, Event.sleep 8,
           Event.attempt, Event.netCall, Event.sleep 16,
           Event.attempt, Event.netCall, Event.sleep 32,
           Event.attempt, Event.netCall, Event.sleep 64,
           Event.attempt, Event.netCall, Event.sleep 128,
           Event.attempt, Event.netCall, Event.sleep 256] := by
  have h := retryLoop_all_net_fail env errs hbody hnr hnet 7 retryDelay 0
  norm_num at h
  refine ⟨?_, by decide, by decide⟩
  simp only [requestRetry, maxRetries, hfake, Bool.false_eq_true, if_false]
  rw [h]

/-- Witness for claim C5 on a transport that always refuses the
connection. -/
theorem requestRetry_exhausts_on_transport_failure_witness :
    requestRetry realClient c5FailEnv
      = (Except.error (fmtErrorf "dial tcp: connection refused"),
         allNetFailEvents 8 retryDelay)
    ∧ countAttempts (allNetFailEvents 8 retryDelay) = 8
    ∧ allNetFailEvents 8 retryDelay
        = [Event.attempt, Event.netCall, Event.sleep 2,
           Event.attempt, Event.netCall, Event.sleep 4,
           Event.attempt, Event.netCall, Event.sleep 8,
           Event.attempt, Event.netCall, Event.sleep 16,
           Event.attempt, Event.netCall, Event.sleep 32,
           Event.attempt, Event.netCall, Event.sleep 64,
           Event.attempt, Event.netCall, Event.sleep 128,
           Event.attempt, Event.netCall, Event.sleep 256] :=
  requestRetry_exhausts_on_transport_failure realClient c5FailEnv
    (fun _ => fmtErrorf "dial tcp: connection refused") rfl rfl rfl (fun _ => rfl)

/-- Claim C6: once any attempt completes a transport round trip, whatever
the status code and however many of the 8 attempts remain, no further
attempt is made: the run performs exactly j + 1 attempts when the round
trip completes on attempt j + 1, no sleep follows it, and the returned
outcome is exactly the classification of that response; when the status is
500 the outcome is the generic failure echoing status text and body. -/
theorem http_status_returned_immediately
    (c : Client) (env : DoEnv) (resp : HttpResponse) (j : Nat)
    (hfake : c.fake = false) (hbody : env.hasBody = false)
    (hnr : env.newRequest = none) (hj : j < 8)
    (hfail : ∀ i, i < j → ∃ err, env.net i = Except.error err)
    (hround : env.net j = Except.ok resp) :
    requestRetry c env = (interpretResponse resp, failThenSuccessEvents j retryDelay)
    ∧ countAttempts (failThenSuccessEvents j retryDelay) = j + 1
    ∧ sleepsOnlyBetweenAttempts (failThenSuccessEvents j retryDelay) = true
    ∧ (resp.statusCode = 500 → ∀ b, resp.bodyRead = Except.ok b →
        interpretResponse resp = Except.error (fmtErrorf
          ("response has status \"" ++ resp.status ++ "\" and body \"" ++ b ++ "\""))) := by
  have hloop := retryLoop_fail_then_succeed env resp hbody hnr j 8 retryDelay 0 hj
    (by intro i hi; simpa using hfail i hi)
    (by simpa using hround)
  refine ⟨?_, countAttempts_failThenSuccessEvents j retryDelay,
    sleepsOnlyBetween_failThenSuccessEvents j retryDelay, ?_⟩
  · simp only [requestRetry, maxRetries, hfake, Bool.false_eq_true, if_false]
    rw [hloop]
  · intro h500 b hb
    simp only [interpretResponse, hb, h500]
    rw [if_neg (by omega), if_pos (by omega)]

/-- Witness for claim C6: a 500 response arriving on the third attempt,
with five attempts remaining, is returned at once as a generic failure. -/
theorem http_status_returned_immediately_witness :
    requestRetry realClient c6Env
      = (interpretResponse c6Resp500, failThenSuccessEvents 2 retryDelay)
    ∧ countAttempts (failThenSuccessEvents 2 retryDelay) = 2 + 1
    ∧ sleepsOnlyBetweenAttempts (failThenSuccessEvents 2 retryDelay) = true
    ∧ (c6Resp500.statusCode = 500 → ∀ b, c6Resp500.bodyRead = Except.ok b →
        interpretResponse c6Resp500 = Except.error (fmtErrorf
          ("response has status \"" ++ c6Resp500.status ++ "\" and body \"" ++ b ++ "\""))) :=
  http_status_returned_immediately realClient c6Env c6Resp500 2 rfl rfl rfl (by decide)
    (fun i hi => ⟨fmtErrorf "i/o timeout", by simp [c6Env, hi]⟩)
    (by simp [c6Env])

/-- Claim C7: every call through a client built by NewFakeClient performs
zero attempts, zero network round trips and zero sleeps, whatever the
environment, and returns the canonical empty object body; through the
typed facade with a non nil result slot this deserializes to the zero
value. -/
theorem fake_client_short_circuits (env : DoEnv) (retNonNil : Bool) :
    requestRetry NewFakeClient env = (Except.ok emptyObjectBody, [])
    ∧ request NewFakeClient env retNonNil
        = (Except.ok (if retNonNil then some DecodeResult.zero else none), [])
    ∧ countAttempts (requestRetry NewFakeClient env).2 = 0
    ∧ countNetCalls (requestRetry NewFakeClient env).2 = 0
    ∧ sleepsOf (requestRetry NewFakeClient env).2 = [] := by
  refine ⟨rfl, ?_, rfl, rfl, rfl⟩
  cases retNonNil
  · rfl
  · rfl

/-- Claim C8: whatever the client configuration (any logger or none), the
log output of ReplaceSecret is exactly the method name and the secret
name, hence identical for any two secret payloads, while CreateJob logs
the rendering of its job payload. -/
theorem replaceSecret_log_independent_of_secret
    (c : Client) (name : String) (s1 s2 : Secret) (j : Job) :
    (ReplaceSecret c name s1).1 = (ReplaceSecret c name s2).1
    ∧ (ReplaceSecret c name s1).1
        = (if c.hasLogger then ["ReplaceSecret(" ++ name ++ ")"] else [])
    ∧ (CreateJob c j).1
        = (if c.hasLogger then ["CreateJob(" ++ j.rendering ++ ")"] else []) := by
  refine ⟨rfl, ?_, ?_⟩ <;> simp only [ReplaceSecret, CreateJob, clientLog] <;> rfl

/-- Claim C9: labelsToSelector on the two entry map from a to 1 and b to 2,
in whichever order Go happens to iterate it, is the comma join of the two
pairs, each present exactly once, in one of the two orders. -/
theorem labelsToSelector_pair (l : List (String × String))
    (h : List.Perm l [("a", "1"), ("b", "2")]) :
    labelsToSelector l = "a = 1,b = 2" ∨ labelsToSelector l = "b = 2,a = 1" := by
  rcases perm_pair_eq h with rfl | rfl
  · left; rfl
  · right; rfl

/-- Witness for claim C9 at one concrete iteration order. -/
theorem labelsToSelector_pair_witness :
    labelsToSelector [("a", "1"), ("b", "2")] = "a = 1,b = 2"
    ∨ labelsToSelector [("a", "1"), ("b", "2")] = "b = 2,a = 1" :=
  labelsToSelector_pair [("a", "1"), ("b", "2")] (List.Perm.refl _)

/-- Claim C10: a deterministic request construction failure, either
json.Marshal failing on a non nil body or http.NewRequest failing, is
treated exactly like a transport failure: all 8 attempts run, a doubling
backoff sleep follows each failed attempt, the construction error itself
is returned at the end, and no network round trip ever occurs. -/
theorem construction_failure_retried_to_exhaustion
    (c : Client) (env : DoEnv) (e : GoError)
    (hfake : c.fake = false)
    (hconstruct : (env.hasBody = true ∧ env.marshal = some e)
      ∨ ((env.hasBody = false ∨ env.marshal = none) ∧ env.newRequest = some e)) :
    requestRetry c env = (Except.error e, constructFailEvents 8 retryDelay)
    ∧ countAttempts (constructFailEvents 8 retryDelay) = 8
    ∧ countNetCalls (constructFailEvents 8 retryDelay) = 0
    ∧ sleepsOf (constructFailEvents 8 retryDelay) = [2, 4, 8, 16, 32, 64, 128, 256] := by
  have hstep : ∀ ni, doRequest env ni = (Except.error e, [Event.attempt], ni) :=
    fun ni => doRequest_construct_err env ni e hconstruct
  have hloop := retryLoop_construct_fail env e hstep 7 retryDelay 0
  norm_num at hloop
  refine ⟨?_, by decide, by decide, by decide⟩
  simp only [requestRetry, maxRetries, hfake, Bool.false_eq_true, if_false]
  rw [hloop]

/-- Witness for claim C10 on a body whose serialization always fails. -/
theorem construction_failure_retried_to_exhaustion_witness :
    requestRetry realClient c10MarshalEnv
      = (Except.error (fmtErrorf "json: unsupported type: chan int"),
         constructFailEvents 8 retryDelay)
    ∧ countAttempts (constructFailEvents 8 retryDelay) = 8
    ∧ countNetCalls (constructFailEvents 8 retryDelay) = 0
    ∧ sleepsOf (constructFailEvents 8 retryDelay) = [2, 4, 8, 16, 32, 64, 128, 256] :=
  construction_failure_retried_to_exhaustion realClient c10MarshalEnv
    (fmtErrorf "json: unsupported type: chan int") rfl (Or.inl ⟨rfl, rfl⟩)
